import Mathlib

/-
Verification of the build orchestrator (src/builder/build.js, css.js, js.js and
the static file handler) against its natural-language specification.
The JavaScript is shallow-embedded: strings model paths, lists of paths model
the file system where file existence matters, and Except models thrown
exceptions and rejected promises. Handler invocations are returned explicitly
as lists so that error-routing claims can be stated.
-/

/-! ## String utilities shared by the embedded functions -/

/-- Model of the regex test `/\/$/` and of `entry.substring(entry.length - 1) === sep`:
does the string end with the given suffix. -/
def strEndsWith (s suffix : String) : Bool :=
  suffix.data.isSuffixOf s.data

/-- Model of one step of JavaScript `String.prototype.replace` with the literal
pattern `//`: only the FIRST occurrence of a double slash is replaced by a
single slash; later occurrences are kept. -/
def replaceFirstDslash : List Char → List Char
  | '/' :: '/' :: rest => '/' :: rest
  | c :: rest => c :: replaceFirstDslash rest
  | [] => []

/-- Does a character list contain a double slash anywhere. -/
def hasDslash : List Char → Bool
  | '/' :: '/' :: _ => true
  | _ :: rest => hasDslash rest
  | [] => false

/-- Model of `file.substr(file.lastIndexOf(sep) + 1)`: the part of the string
after the last slash (the whole string when there is no slash). -/
def substrAfterLastSlash (s : String) : String :=
  String.mk ((s.data.reverse.takeWhile (fun c => c ≠ '/')).reverse)

/-- Model of `target.substring(0, target.lastIndexOf(sep))`: the part of the
string before the last slash (empty when there is no slash, as in JavaScript
where `substring(0, -1)` clamps to the empty string). -/
def substrBeforeLastSlash (s : String) : String :=
  String.mk (((s.data.reverse.dropWhile (fun c => c ≠ '/')).drop 1).reverse)

/-- Model of `path.split(sep)` on character lists. -/
def splitSlash : List Char → List (List Char)
  | [] => [[]]
  | c :: cs =>
    let r := splitSlash cs
    if c = '/' then [] :: r
    else
      match r with
      | head :: tail => (c :: head) :: tail
      | [] => [[c]]

/-! ## PathResolver: `getAbsolutePath` (build.js lines 59-65)

The JavaScript reads `process.cwd()`; the embedding passes the working
directory as the explicit first argument `cwd`. -/

/-- Embedding of `getAbsolutePath(path, file)`: append a slash to a non-empty
base not already ending in one, concatenate the file, replace the first `//`
with `/`, and prefix the working directory. -/
def getAbsolutePath (cwd path file : String) : String :=
  let path2 := if 0 < path.length ∧ strEndsWith path "/" = false then path ++ "/" else path
  cwd ++ "/" ++ String.mk (replaceFirstDslash (path2 ++ file).data)

/-- Specification-side join for the amended claim C3: insert exactly one
separator between a non-empty base and the fragment. -/
def joinOneSep (path file : String) : String :=
  if 0 < path.length ∧ strEndsWith path "/" = false then path ++ "/" ++ file else path ++ file

/-- Specification-side collapse for the amended claim C3: collapse only the
first duplicated separator. -/
def collapseFirstDup (s : String) : String :=
  String.mk (replaceFirstDslash s.data)

/-! ## EntrySpec resolution: `getMappedEntries` (build.js lines 225-242) -/

/-- An entry of the `entries` mapping of an application map: a single source
path, an ordered list of source paths, or an object with a recursive `source`
plus optional `external` and `format` fields. -/
inductive Entry
  | str : String → Entry
  | list : List String → Entry
  | obj : Entry → Option (List String) → Option String → Entry
deriving DecidableEq, Repr

/-- The result of `getMappedEntries`: either a list of absolute paths or an
object copy whose `source` was resolved and whose other fields were kept. -/
inductive ResolvedEntry
  | paths : List String → ResolvedEntry
  | obj : ResolvedEntry → Option (List String) → Option String → ResolvedEntry
deriving DecidableEq, Repr

/-- The `external` field of a resolved entry, when present. -/
def ResolvedEntry.externalOf : ResolvedEntry → Option (List String)
  | ResolvedEntry.paths _ => none
  | ResolvedEntry.obj _ ext _ => ext

/-- Embedding of `getMappedEntries(source, entry)`: strings and arrays are
expanded to absolute paths; for an object the copy keeps `external` and
`format` unchanged and only the `source` field is resolved recursively. -/
def getMappedEntries (cwd source : String) : Entry → ResolvedEntry
  | Entry.str s => ResolvedEntry.paths [getAbsolutePath cwd source s]
  | Entry.list ss => ResolvedEntry.paths (ss.map (getAbsolutePath cwd source))
  | Entry.obj inner ext fmt => ResolvedEntry.obj (getMappedEntries cwd source inner) ext fmt

/-! ## File type registry: `getFileType` (build.js lines 145-155) -/

/-- Identifier of a file type descriptor in the fixed registry. -/
inductive FileTypeId
  | js
  | css
  | html
  | files
deriving DecidableEq, Repr

/-- Embedding of `getFileType(fileName)`: the first regular expression in the
registry order js, css, html, files that matches the output name wins; the
fallback is the pass-through `files` descriptor. -/
def getFileType (fileName : String) : FileTypeId :=
  if strEndsWith fileName ".js" then FileTypeId.js
  else if strEndsWith fileName ".css" then FileTypeId.css
  else if strEndsWith fileName ".html" then FileTypeId.html
  else if strEndsWith fileName "/" then FileTypeId.files
  else FileTypeId.files

/-! ## Errors thrown by the embedded JavaScript -/

/-- A JavaScript exception: a reference to an undefined identifier, a call of a
missing method, or a file system error with its code. -/
inductive JsErr
  | referenceError : String → JsErr
  | typeError : String → JsErr
  | fsError : String → String → JsErr
deriving DecidableEq, Repr

/-! ## `once` (build.js lines 248-270)

The outcome of `writeToFile` for one entry depends on compilation backends and
the file system, both external to the orchestrator; the embedding therefore
takes a `build` argument giving, for a target path, output name, resolved
entry and file type, the settlement of the `writeToFile` promise. `once`
returns the list of errors handed to its error handler together with the
settlement of the aggregate promise; a `JsErr` on the exception side models a
synchronous throw. -/

/-- The application map: `source`, `target` and the `entries` mapping, each
possibly absent. -/
structure AppMap where
  source : Option String
  target : Option String
  entries : Option (List (String × Entry))
deriving DecidableEq, Repr

/-- Embedding of `once(appMap, handleError)`. When `entries` is absent the
source evaluates `new Errors.BadInput(mapFile, ...)` where `mapFile` is an
undefined identifier, so a ReferenceError is thrown before the handler is
invoked. Otherwise every entry is attempted; a rejected `writeToFile` is
caught and its error handed to the handler, so the aggregate settles
successfully with one settlement per entry. -/
def once (cwd : String) (m : AppMap)
    (build : String → String → ResolvedEntry → FileTypeId → Except String Unit) :
    List String × Except JsErr (List Unit) :=
  let source := m.source.getD ""
  let target := m.target.getD ""
  match m.entries with
  | none => ([], Except.error (JsErr.referenceError "mapFile"))
  | some es =>
    let outs := es.map (fun p =>
      match build target p.1 (getMappedEntries cwd source p.2) (getFileType p.1) with
      | Except.ok _ => (Option.none, ())
      | Except.error e => (some e, ()))
    (outs.filterMap Prod.fst, Except.ok (outs.map Prod.snd))

/-! ## The watch rebuild step (build.js lines 111-143)

On timer expiry the watcher runs
`logged(label, writeToFile.bind({}, target, output, ..., path))`; `logged`
invokes the bound function and discards its returned promise, and the
`.catch(handleError)` in the source is commented out, so a rejected rebuild
is an unhandled rejection and the error handler is never invoked. -/

/-- What a single watch-triggered rebuild leaves behind: the errors handed to
the error handler and the unhandled rejection, if any. -/
structure RebuildOutcome where
  handlerCalls : List String
  unhandledRejection : Option String
deriving DecidableEq, Repr

/-- Embedding of the timer callback of `getWatchers`: run the rebuild, discard
its promise. No handler is attached to it. -/
def watchRebuild (build : Except String Unit) : RebuildOutcome :=
  match build with
  | Except.ok _ => { handlerCalls := [], unhandledRejection := none }
  | Except.error e => { handlerCalls := [], unhandledRejection := some e }

/-! ## Debouncing (build.js lines 111-143)

Each watcher holds a closure variable `timeOut`. A raw event when no timer is
pending starts one that fires `WATCH_TIMEOUT` milliseconds later; a raw event
while a timer is pending is ignored; when the timer fires it runs the rebuild
once and clears itself. `debounceFires` runs this state machine over an
ascending list of raw event times and returns the times at which the rebuild
runs. -/

/-- The debounce window of the source, in milliseconds. -/
def WATCH_TIMEOUT : Nat := 2000

/-- Rebuild times produced by a sequence of raw change events under the
debounce logic of `getWatchers`: the second argument is the deadline of the
pending timer, if one is pending. -/
def debounceFires (w : Nat) : List Nat → Option Nat → List Nat
  | [], none => []
  | [], some d => [d]
  | t :: ts, none => debounceFires w ts (some (t + w))
  | t :: ts, some d =>
    if d ≤ t then d :: debounceFires w ts (some (t + w))
    else debounceFires w ts (some d)

/-! ## The error handler facade (build.js lines 301-331)

Handlers are modelled as functions from an error to the line they emit, so
that which handler received an error is observable. -/

/-- Embedding of `defaultHandleError = error => console.error(error)`. -/
def defaultHandleError (e : String) : String :=
  "console.error " ++ e

/-- Does the css backend export an `onError` method. It does: the `CSS` class
of css.js defines `onError(handler)`. -/
def cssHasOnError : Bool := true

/-- Modelled from the spec: html.js is not under src/; per the specification
the handler is propagated to every backend, so the html backend is modelled as
exposing an `onError` method. -/
def htmlHasOnError : Bool := true

/-- Does the js backend export an `onError` method. It does not: the default
export of js.js has only `compile`, `minify`, `transpile`, `mapFile`,
`loadFiles` and `loadFile`. -/
def jsHasOnError : Bool := false

/-- Embedding of `Build.prototype.onError(handler)`: it assigns
`this.handleError` and then calls `css.onError(handler)`,
`html.onError(handler)` and `js.onError(handler)` in that order; calling a
method a backend does not have throws a TypeError. -/
def buildOnError : Except JsErr Unit :=
  if cssHasOnError = false then Except.error (JsErr.typeError "css.onError is not a function")
  else if htmlHasOnError = false then Except.error (JsErr.typeError "html.onError is not a function")
  else if jsHasOnError = false then Except.error (JsErr.typeError "js.onError is not a function")
  else Except.ok ()

/-- Embedding of the facade method `once(appMap)` of the `Build` class: it
calls the module-level `once(appMap)` WITHOUT forwarding `this.handleError`,
so the default parameter `defaultHandleError` receives every error that
`once` hands to its handler, whatever handler was stored by `onError`. The
returned list holds the lines emitted by the handler that was actually
used. -/
def facadeOnce (storedHandler : String → String) (cwd : String) (m : AppMap)
    (build : String → String → ResolvedEntry → FileTypeId → Except String Unit) :
    List String × Except JsErr (List Unit) :=
  let r := once cwd m build
  (r.1.map defaultHandleError, r.2)

/-! ## Stale output removal: `removeFileIfRedundant` (build.js lines 202-219)

`existsSync` is modelled by membership in an explicit list of existing
paths. -/

/-- Embedding of the predicate passed to `entries.find`: an entry matches the
changed file if it is the file itself and still exists, or if it is a folder
entry (ending in a separator) and the file still exists inside it. -/
def entryMatches (fs : List String) (file entry : String) : Bool :=
  if entry = file then fs.contains entry
  else if strEndsWith entry "/" then fs.contains (entry ++ file)
  else false

/-- Embedding of `removeFileIfRedundant(file, entries, destPath)`: when no
entry matches and the copied artifact still exists at the target, unlink it;
otherwise leave the file system unchanged. Returns the file system after the
call. -/
def removeFileIfRedundant (fs : List String) (file : String) (entries : List String)
    (destPath : String) : List String :=
  if !(entries.any (entryMatches fs file)) && fs.contains (destPath ++ file) then
    fs.erase (destPath ++ file)
  else fs

/-! ## Reference discovery dispatch (build.js lines 89-103, js.js line 77,
css.js line 73)

`getWatcherPromises` calls `mapFunc(file, external)` uniformly for every file
type. The js backend's `mapFile(fileName, external)` forwards `external` to
the nested mapper; the css backend's `mapFile(fileName)` takes a single
parameter, so the `external` argument is silently dropped. The underlying
mappers (map-nested.js, mapper.js) are external inputs here, passed as
function arguments. -/

/-- The import pattern constant of js.js. -/
def jsImportPattern : String :=
  "import.*([\x22\x5c\x27])(.*\x5c.js)\x5c1"

/-- The import pattern constant of css.js. -/
def cssImportPattern : String :=
  "^@import.*([\x22\x27])(.*)\x5c1.*$"

/-- Embedding of js.js `mapFile(fileName, external)`: the external list is
forwarded to `mapNested` along with the import pattern. -/
def jsMapFile (mapNested : String → String → List String → List String)
    (fileName : String) (external : List String) : List String :=
  mapNested fileName jsImportPattern external

/-- Embedding of css.js `mapFile(fileName)`: only the file name and the import
pattern reach `mapper.map`; the function has no external parameter. -/
def cssMapFile (mapperMap : String → String → List String) (fileName : String) : List String :=
  mapperMap fileName cssImportPattern

/-- The call `mapFunc(file, external)` of `getWatcherPromises` as it lands on
the css descriptor: the second argument is dropped by the one-parameter
`mapFile`. -/
def cssMapFileCall (mapperMap : String → String → List String)
    (fileName : String) (external : List String) : List String :=
  cssMapFile mapperMap fileName

/-- Modelled from the spec: mapper.js is not under src/. A concrete reference
mapper for the counterexample, returning the files transitively reachable from
the root stylesheet; per the specification `discover` returns the reachable
set, and this mapper cannot consult any exclusion list because css.js never
passes one. -/
def specCssMapper (fileName : String) (pattern : String) : List String :=
  if fileName = "root.css" then ["root.css", "excluded.css", "sub.css"] else [fileName]

/-! ## `CSS.compile` (css.js lines 20-43)

Promises over a value type are modelled as `Except String`, with `pThen`
as promise chaining. The collaborators `loadFile`, `sass`, `prefix` and
`minify` are passed as arguments: each is the settlement of the corresponding
promise. `cssCompile` returns the settlement of the promise returned by
`compile` together with the errors handed to `this.handleError`. -/

/-- The merged source set produced by `loadFile`: the contributing files and
their concatenated content. -/
structure FileSet where
  files : List String
  content : String
deriving DecidableEq, Repr

/-- Promise chaining: a fulfilled value flows into the continuation, a
rejection propagates. -/
def pThen (p : Except String α) (f : α → Except String β) : Except String β :=
  match p with
  | Except.ok a => f a
  | Except.error e => Except.error e

/-- Embedding of `CSS.compile(fileName)`. A `loadFile` rejection is caught by
the outer `.catch`, handed to the handler, and the promise resolves with an
empty file set. An empty content short-circuits. A `sass` rejection is caught
by the inner `.catch`, handed to the handler, and the chain continues with the
empty string through `prefix` and `minify`; if those fail, the outer `.catch`
catches that too. The returned promise is therefore always fulfilled. -/
def cssCompile (load : Except String FileSet)
    (sassF prefixF minifyF : String → Except String String) :
    Except String FileSet × List String :=
  match load with
  | Except.error e => (Except.ok { files := [], content := "" }, [e])
  | Except.ok fileSet =>
    if fileSet.content.length = 0 then (Except.ok fileSet, [])
    else
      let sassStep :=
        match sassF fileSet.content with
        | Except.ok s => (s, ([] : List String))
        | Except.error e => ("", [e])
      match pThen (prefixF sassStep.1) minifyF with
      | Except.ok m => (Except.ok { files := fileSet.files, content := m }, sassStep.2)
      | Except.error e => (Except.ok { files := [], content := "" }, sassStep.2 ++ [e])

/-! ## The static file handler (the `Static` prototype: `copy`,
`getFileTargt`, `validatePathExists`)

The file system is a list of paths tagged as files or directories. `glob` is
modelled for the two pattern shapes `copy` uses: a literal path, and
`dir/*.*` which matches the direct children of `dir` whose name contains a
dot. `fs.copyFileSync` follows its documented behaviour: it copies regular
files and throws on a directory source; a charitable variant that creates the
target directory instead is also embedded, to show the claim fails under
either reading. -/

/-- A node of the modelled file system. -/
inductive FsEntry
  | file
  | dir
deriving DecidableEq, Repr

/-- The modelled file system: existing paths with their kind. -/
abbrev FileSys := List (String × FsEntry)

/-- Drop one trailing separator, as the system calls tolerate it on
directories. -/
def normPath (p : String) : String :=
  if strEndsWith p "/" then String.mk p.data.dropLast else p

/-- Model of `fs.existsSync`. -/
def existsSyncFs (fs : FileSys) (p : String) : Bool :=
  fs.any (fun e => e.1 = normPath p)

/-- Model of `fs.lstatSync(p).isDirectory()` for an existing path. -/
def isDirFs (fs : FileSys) (p : String) : Bool :=
  fs.any (fun e => e.1 = normPath p && e.2 = FsEntry.dir)

/-- Embedding of `Static.getFileTargt(file, target)`: a target ending in a
separator receives the basename of the file appended; any other target is the
exact destination name. -/
def getFileTargt (file target : String) : String :=
  if strEndsWith target "/" then target ++ substrAfterLastSlash file else target

/-- Embedding of `Static.validatePathExists(path)`: fold over the segments of
the path, creating each missing cumulative prefix with `mkdirSync`;
`mkdirSync` of the empty string (the first segment of an absolute path)
throws. -/
def validatePathExists (fs : FileSys) (path : String) : Except JsErr FileSys :=
  ((splitSlash path.data).foldlM (fun (st : String × FileSys) folder =>
      let acc := st.1 ++ String.mk folder
      if existsSyncFs st.2 acc then Except.ok (acc ++ "/", st.2)
      else if acc = "" then Except.error (JsErr.fsError "ENOENT" "mkdir")
      else Except.ok (acc ++ "/", st.2 ++ [(acc, FsEntry.dir)]))
    ("", fs)).map Prod.snd

/-- If `p` extends the prefix, the remainder of `p` past it. -/
def stripPrefixChars : List Char → List Char → Option (List Char)
  | [], rest => some rest
  | c :: cs, d :: ds => if c = d then stripPrefixChars cs ds else none
  | _ :: _, [] => none

/-- Does path `p` name a direct child of `dir` whose basename contains a dot
(the files matched by the glob pattern `dir/*.*`). -/
def globChildWithDot (dir p : String) : Bool :=
  match stripPrefixChars (dir ++ "/").data p.data with
  | some rest => rest ≠ [] && !(rest.contains '/') && rest.contains '.'
  | none => false

/-- Model of `glob.sync(pattern, ...)` for the pattern shapes used by
`Static.copy`: a pattern ending in the wildcard suffix lists the dotted
children of its directory; a literal pattern matches itself when it exists. -/
def globSync (fs : FileSys) (pattern : String) : List String :=
  if strEndsWith pattern "/*.*" then
    let dir := String.mk (pattern.data.take (pattern.data.length - 4))
    fs.filterMap (fun e => if globChildWithDot dir e.1 then some e.1 else none)
  else if existsSyncFs fs pattern then [pattern] else []

/-- Documented behaviour of `fs.copyFileSync(src, dst)`: copy a regular file;
throw EISDIR when the source is a directory, ENOENT when it is missing. -/
def copyFileSyncFs (fs : FileSys) (src dst : String) : Except JsErr FileSys :=
  if isDirFs fs src then Except.error (JsErr.fsError "EISDIR" src)
  else if existsSyncFs fs src then Except.ok (fs ++ [(normPath dst, FsEntry.file)])
  else Except.error (JsErr.fsError "ENOENT" src)

/-- Charitable variant of the copy collaborator: a directory source creates a
directory at the destination instead of throwing. -/
def copyFileDirOk (fs : FileSys) (src dst : String) : Except JsErr FileSys :=
  if isDirFs fs src then Except.ok (fs ++ [(normPath dst, FsEntry.dir)])
  else if existsSyncFs fs src then Except.ok (fs ++ [(normPath dst, FsEntry.file)])
  else Except.error (JsErr.fsError "ENOENT" src)

/-- Embedding of `Static.copy(source, target)` for a single source pattern:
ensure the parent chain of the target exists, then for every glob match copy
it to its computed file target and, when the original target names a
directory, recurse into the match with the wildcard pattern. Exceptions
propagate; the `fuel` argument only bounds the recursion depth. -/
def staticCopy (copyFile : FileSys → String → String → Except JsErr FileSys)
    (fuel : Nat) (fs : FileSys) (source target : String) : Except JsErr FileSys :=
  match fuel with
  | 0 => Except.error (JsErr.fsError "FUEL" source)
  | fuel + 1 =>
    match validatePathExists fs (substrBeforeLastSlash target) with
    | Except.error e => Except.error e
    | Except.ok fs1 =>
      (globSync fs1 source).foldlM (fun acc file =>
        let fileTarget := getFileTargt file target
        match copyFile acc file fileTarget with
        | Except.error e => Except.error e
        | Except.ok fs2 =>
          if isDirFs fs2 target then
            staticCopy copyFile fuel fs2 (file ++ "/*.*") (fileTarget ++ "/")
          else Except.ok fs2) fs1

/-- Does a path exist after a copy that may have thrown. -/
def existsAfter (r : Except JsErr FileSys) (p : String) : Bool :=
  match r with
  | Except.ok fs => existsSyncFs fs p
  | Except.error _ => false

/-! ## Concrete inputs used by the witnesses and counterexamples -/

/-- A build collaborator whose every entry succeeds. -/
def demoBuildOk : String → String → ResolvedEntry → FileTypeId → Except String Unit :=
  fun _ _ _ _ => Except.ok ()

/-- A build collaborator for which the compilation of the output `app.js`
rejects and every other entry succeeds. -/
def demoBuildFail1 : String → String → ResolvedEntry → FileTypeId → Except String Unit :=
  fun _ name _ _ => if name = "app.js" then Except.error "boom" else Except.ok ()

/-- A two-entry application map. -/
def demoMap2 : AppMap :=
  { source := some "src"
    target := some "out"
    entries := some [("app.js", Entry.str "a.js"), ("app.css", Entry.str "b.css")] }

/-- An application map whose `entries` key is absent. -/
def demoMapNoEntries : AppMap :=
  { source := some "src", target := some "out", entries := none }

/-- A sass collaborator that always succeeds. -/
def demoSass : String → Except String String :=
  fun s => Except.ok ("sass " ++ s)

/-- A prefix collaborator that always succeeds. -/
def demoPrefix : String → Except String String :=
  fun s => Except.ok ("prefix " ++ s)

/-- A minify collaborator that always succeeds. -/
def demoMinify : String → Except String String :=
  fun s => Except.ok ("minify " ++ s)

/-- A source tree for the static copy claim: the folder `res/sub` holds a
dotted file and a nested dot-less subfolder holding a file, mirroring the
repository test fixture tests/resources/subfolder/subfolder2/file3.html. -/
def demoFs : FileSys :=
  [("res", FsEntry.dir),
   ("res/sub", FsEntry.dir),
   ("res/sub/file2.html", FsEntry.file),
   ("res/sub/inner", FsEntry.dir),
   ("res/sub/inner/f.txt", FsEntry.file)]

/-! ## Theorems -/

/-- Claim C1: the claim says every rejected compile or copy is routed to the
configured error handler and the aggregate settles. In `once` this holds: the
failing entry of the two-entry map hands its error to the handler and the
aggregate settles successfully with both entries attempted. But in a
watch-triggered rebuild of `live`, the same compile rejection invokes no
handler at all and remains an unhandled rejection, because `logged` discards
the promise and the `.catch(handleError)` of the source is commented out: the
code contradicts the claim there. -/
theorem once_isolates_but_watch_rebuild_drops_errors :
    once "CWD" demoMap2 demoBuildFail1 = (["boom"], Except.ok [(), ()]) ∧
    watchRebuild (Except.error "boom")
      = { handlerCalls := [], unhandledRejection := some "boom" } :=
  ⟨rfl, rfl⟩

/-- Claim C2: the claim says a map without `entries` is reported through the
error handler and the call fails fast without crashing. In the code the
missing-entries branch evaluates the undefined identifier `mapFile`, so a
ReferenceError is thrown before the handler ever runs: no handler call is
recorded and the call crashes. -/
theorem once_missing_entries_throws :
    once "CWD" demoMapNoEntries demoBuildOk
      = ([], Except.error (JsErr.referenceError "mapFile")) :=
  rfl

/-- Counterexample to claim C3: joining a base and fragment that carry more
than one duplicated separator leaves a double slash in the result, because
`replace` with a string pattern rewrites only the first occurrence: the claim
that any duplicate separator is collapsed is false. -/
theorem getAbsolutePath_keeps_second_dup :
    getAbsolutePath "CWD" "a//b" "c//d" = "CWD/a/b/c//d" ∧
    hasDslash (getAbsolutePath "CWD" "a//b" "c//d").data = true := by
  decide

/-- Claim C3 (amended): `getAbsolutePath` joins base and fragment inserting
exactly one separator between a non-empty base and the fragment, collapses
only the FIRST duplicated separator of the joined string, and always returns
a path rooted at the working directory; it is a pure function with no
failure modes. -/
theorem getAbsolutePath_join_and_collapse_first (cwd path file : String) :
    getAbsolutePath cwd path file = cwd ++ "/" ++ collapseFirstDup (joinOneSep path file) ∧
    ∃ rest, getAbsolutePath cwd path file = cwd ++ "/" ++ rest := by
  have h1 : getAbsolutePath cwd path file
      = cwd ++ "/" ++ collapseFirstDup (joinOneSep path file) := by
    unfold getAbsolutePath joinOneSep collapseFirstDup
    by_cases h : 0 < path.length ∧ strEndsWith path "/" = false
    · simp only [if_pos h]
    · simp only [if_neg h]
  exact ⟨h1, collapseFirstDup (joinOneSep path file), h1⟩

/-- Claim C4: two raw change notifications for the same observed file inside
the debounce window produce exactly one rebuild, at the end of the window
opened by the first event; the timer is then cleared, so a later burst of two
further events inside a fresh window is debounced again and produces exactly
one further rebuild. -/
theorem debounce_coalesces_within_window (t1 t2 : Nat)
    (h2 : t2 < t1 + WATCH_TIMEOUT) :
    debounceFires WATCH_TIMEOUT [t1, t2] none = [t1 + WATCH_TIMEOUT] ∧
    (∀ t3 t4, t1 + WATCH_TIMEOUT ≤ t3 → t4 < t3 + WATCH_TIMEOUT →
      debounceFires WATCH_TIMEOUT [t1, t2, t3, t4] none
        = [t1 + WATCH_TIMEOUT, t3 + WATCH_TIMEOUT]) := by
  have hn : ¬ (t1 + WATCH_TIMEOUT ≤ t2) := by omega
  constructor
  · simp [debounceFires, hn]
  · intro t3 t4 h3 h4
    have hn2 : ¬ (t3 + WATCH_TIMEOUT ≤ t4) := by omega
    simp [debounceFires, hn, h3, hn2]

/-- Witness for claim C4 at the events 0 and 1 plus the later burst 2000 and
2001. -/
theorem debounce_coalesces_within_window_witness :
    debounceFires WATCH_TIMEOUT [0, 1] none = [0 + WATCH_TIMEOUT] ∧
    debounceFires WATCH_TIMEOUT [0, 1, 2000, 2001] none
      = [0 + WATCH_TIMEOUT, 2000 + WATCH_TIMEOUT] :=
  ⟨(debounce_coalesces_within_window 0 1 (by decide)).1,
   (debounce_coalesces_within_window 0 1 (by decide)).2 2000 2001 (by decide) (by decide)⟩

/-- Helper: for a changed file that does not end in a separator, the find
predicate of `removeFileIfRedundant` holds exactly when the entry is the
still-existing file itself or a folder entry still containing the file. -/
theorem entryMatches_iff (fs : List String) (file e : String)
    (hf : strEndsWith file "/" = false) :
    entryMatches fs file e = true ↔
      (e = file ∧ e ∈ fs) ∨ (strEndsWith e "/" = true ∧ (e ++ file) ∈ fs) := by
  unfold entryMatches
  by_cases h1 : e = file
  · subst h1
    simp [hf]
  · by_cases h2 : strEndsWith e "/" = true
    · simp [h1, h2]
    · simp [h1, h2]

/-- Claim C5: on a change event for a pass-through output, the stale target
artifact `destPath ++ file` is deleted exactly when no current source entry
matches the changed file, neither as an exact still-existing file nor as
contained in a still-existing folder entry, and the artifact still exists;
in every other case the file system is left unchanged. Stated for a changed
file that does not itself end in a separator. -/
theorem removeFileIfRedundant_spec (fs : List String) (file : String)
    (entries : List String) (destPath : String)
    (hf : strEndsWith file "/" = false) :
    ((¬ ∃ e ∈ entries, (e = file ∧ e ∈ fs) ∨ (strEndsWith e "/" = true ∧ (e ++ file) ∈ fs)) →
      (destPath ++ file) ∈ fs →
      removeFileIfRedundant fs file entries destPath = fs.erase (destPath ++ file)) ∧
    (((∃ e ∈ entries, (e = file ∧ e ∈ fs) ∨ (strEndsWith e "/" = true ∧ (e ++ file) ∈ fs)) ∨
        (destPath ++ file) ∉ fs) →
      removeFileIfRedundant fs file entries destPath = fs) := by
  have hany : entries.any (entryMatches fs file) = true ↔
      ∃ e ∈ entries, (e = file ∧ e ∈ fs) ∨ (strEndsWith e "/" = true ∧ (e ++ file) ∈ fs) := by
    rw [List.any_eq_true]
    constructor
    · rintro ⟨e, he, hm⟩
      exact ⟨e, he, (entryMatches_iff fs file e hf).mp hm⟩
    · rintro ⟨e, he, hm⟩
      exact ⟨e, he, (entryMatches_iff fs file e hf).mpr hm⟩
  constructor
  · intro hno hmem
    have hb : entries.any (entryMatches fs file) = false := by
      cases hx : entries.any (entryMatches fs file)
      · rfl
      · exact absurd (hany.mp hx) hno
    have hcont : fs.contains (destPath ++ file) = true := by
      simpa using hmem
    unfold removeFileIfRedundant
    rw [hb, hcont]
    simp
  · intro hor
    unfold removeFileIfRedundant
    rcases hor with hex | hnm
    · have hb : entries.any (entryMatches fs file) = true := hany.mpr hex
      rw [hb]
      simp
    · have hcont : fs.contains (destPath ++ file) = false := by
        simpa using hnm
      rw [hcont]
      simp

/-- Witness for claim C5: the only source entry is gone, the copied artifact
still exists, so the artifact is unlinked. -/
theorem removeFileIfRedundant_spec_witness :
    removeFileIfRedundant ["out/a.txt"] "a.txt" ["gone.txt"] "out/"
      = List.erase ["out/a.txt"] ("out/" ++ "a.txt") :=
  (removeFileIfRedundant_spec ["out/a.txt"] "a.txt" ["gone.txt"] "out/"
    (by decide)).1 (by decide) (by decide)

/-- Counterexample to claim C6: resolving an object entry leaves its
`external` field exactly as written, here the relative path inside
`some ["lib.js"]`, while the expansion the claim promises would be the
absolute path `CWD/src/lib.js`: external paths are NOT expanded. -/
theorem getMappedEntries_external_not_expanded :
    getMappedEntries "CWD" "src" (Entry.obj (Entry.str "a.js") (some ["lib.js"]) none)
      = ResolvedEntry.obj (ResolvedEntry.paths ["CWD/src/a.js"]) (some ["lib.js"]) none ∧
    getAbsolutePath "CWD" "src" "lib.js" = "CWD/src/lib.js" ∧
    ResolvedEntry.externalOf
        (getMappedEntries "CWD" "src" (Entry.obj (Entry.str "a.js") (some ["lib.js"]) none))
      ≠ some ["CWD/src/lib.js"] := by
  decide

/-- Claim C6 (amended): resolution maps a string or list entry to the ordered
sequence of its absolute paths under the source root, and maps an object
entry by resolving its `source` field recursively while preserving the
`external` and `format` fields verbatim; external paths are not expanded. -/
theorem getMappedEntries_spec (cwd root s : String) (ss : List String) (inner : Entry)
    (ext : Option (List String)) (fmt : Option String) :
    getMappedEntries cwd root (Entry.str s)
      = ResolvedEntry.paths [getAbsolutePath cwd root s] ∧
    getMappedEntries cwd root (Entry.list ss)
      = ResolvedEntry.paths (ss.map (getAbsolutePath cwd root)) ∧
    getMappedEntries cwd root (Entry.obj inner ext fmt)
      = ResolvedEntry.obj (getMappedEntries cwd root inner) ext fmt :=
  ⟨rfl, rfl, rfl⟩

/-- Counterexample to claim C7: the css descriptor receives the `external`
list from `getWatcherPromises` but its one-parameter `mapFile` drops it, so a
file excluded via `external` still appears in the returned reference set. -/
theorem cssMapFile_ignores_external :
    cssMapFileCall specCssMapper "root.css" ["excluded.css"]
      = ["root.css", "excluded.css", "sub.css"] ∧
    "excluded.css" ∈ cssMapFileCall specCssMapper "root.css" ["excluded.css"] := by
  decide

/-- Claim C7 (amended): `getWatcherPromises` passes the entry `external`
paths to the js descriptor, whose `mapFile` forwards them to the nested
reference mapper, but the css descriptor ignores the argument: its discovery
result is independent of the external list, so only js outputs honour
exclusions. -/
theorem mapFile_external_forwarding
    (mapNested : String → String → List String → List String)
    (mapperMap : String → String → List String)
    (f : String) (e e1 e2 : List String) :
    jsMapFile mapNested f e = mapNested f jsImportPattern e ∧
    cssMapFileCall mapperMap f e1 = cssMapFileCall mapperMap f e2 :=
  ⟨rfl, rfl⟩

/-- Claim C8: the claim says a handler set through `onError` receives every
failure of subsequent `once`/`live` calls and is propagated to every backend.
In the code `Build.onError` throws a TypeError part way through, because the
js backend exports no `onError` method; and the facade methods call the
module-level `once`/`live` without forwarding the stored handler, so the
errors of a subsequent `once` are emitted by the default console logger even
when a user handler was stored. -/
theorem onError_propagation_broken :
    buildOnError = Except.error (JsErr.typeError "js.onError is not a function") ∧
    facadeOnce (fun e => "user " ++ e) "CWD" demoMap2 demoBuildFail1
      = (["console.error boom"], Except.ok [(), ()]) :=
  ⟨rfl, rfl⟩

/-- Claim C9: the claim says copying a source folder with a nested subfolder
reproduces the full relative subtree under the target. Under the documented
behaviour of the copy collaborator, `copy` throws EISDIR because it invokes
the file copy on the directory itself. Even under a charitable collaborator
that creates the target directory instead, the recursive descent uses the
glob pattern `/*.*`, which skips the dot-less subfolder `inner`, so
`dist/sub/inner/f.txt` is never produced while its sibling
`dist/sub/file2.html` is: the subtree is not reproduced, contradicting the
claim and the repository test expecting
tests/dist/subfolder2/file3.html. -/
theorem staticCopy_loses_nested_subfolder :
    staticCopy copyFileSyncFs 9 demoFs "res/sub" "dist/"
      = Except.error (JsErr.fsError "EISDIR" "res/sub") ∧
    existsAfter (staticCopy copyFileDirOk 9 demoFs "res/sub" "dist/")
      "dist/sub/file2.html" = true ∧
    existsAfter (staticCopy copyFileDirOk 9 demoFs "res/sub" "dist/")
      "dist/sub/inner/f.txt" = false :=
  ⟨rfl, rfl, rfl⟩

/-- Claim C10: `CSS.compile` never rejects: for every collaborator outcome the
returned promise is fulfilled; a load failure is handed to the module handler
and the promise resolves with the empty file set; a sass failure with
non-empty content is handed to the handler and the promise resolves with the
prefix and minify pipeline applied to the empty string. -/
theorem cssCompile_never_rejects (load : Except String FileSet)
    (sassF prefixF minifyF : String → Except String String) :
    (∃ v, (cssCompile load sassF prefixF minifyF).1 = Except.ok v) ∧
    (∀ e, load = Except.error e →
      cssCompile load sassF prefixF minifyF
        = (Except.ok { files := [], content := "" }, [e])) ∧
    (∀ fileSet e m, load = Except.ok fileSet → fileSet.content.length ≠ 0 →
      sassF fileSet.content = Except.error e →
      pThen (prefixF "") minifyF = Except.ok m →
      cssCompile load sassF prefixF minifyF
        = (Except.ok { files := fileSet.files, content := m }, [e])) := by
  refine ⟨?_, ?_, ?_⟩
  · rcases load with e | fileSet
    · exact ⟨_, rfl⟩
    · simp only [cssCompile]
      by_cases hc : fileSet.content.length = 0
      · rw [if_pos hc]
        exact ⟨_, rfl⟩
      · rw [if_neg hc]
        rcases hp : pThen (prefixF (match sassF fileSet.content with
            | Except.ok s => (s, ([] : List String))
            | Except.error e => ("", [e])).1) minifyF with e2 | m
        · rw [hp]
          exact ⟨_, rfl⟩
        · rw [hp]
          exact ⟨_, rfl⟩
  · intro e he
    subst he
    rfl
  · intro fileSet e m hload hc hs hp
    subst hload
    simp only [cssCompile]
    rw [if_neg hc, hs]
    rw [show (match (Except.error e : Except String String) with
        | Except.ok s => (s, ([] : List String))
        | Except.error e => ("", [e])) = ("", [e]) from rfl]
    rw [hp]

/-- Witness for claim C10: a rejected load settles the compile promise
successfully with the empty file set and the error handed to the handler. -/
theorem cssCompile_never_rejects_witness :
    cssCompile (Except.error "load fail") demoSass demoPrefix demoMinify
      = (Except.ok { files := [], content := "" }, ["load fail"]) :=
  (cssCompile_never_rejects (Except.error "load fail") demoSass demoPrefix demoMinify).2.1
    "load fail" rfl
